import Mathlib

/-!
Verification development for the DICOM PACS gateway
(`api_main.py`, `pacs_operations.py`, `dicom_scp.py`,
`mcp_server/tools/query.py`, `mcp_server/tools/store.py`).

The Python code is shallowly embedded: pydicom datasets become ordered
association lists from tags to string values, the network operations become
pure interpreters over an explicit environment describing the outcomes of the
external calls (association establishment, the response stream, exceptions
raised while the stream is consumed), and the element-value conversion logic
of `find_instances_in_series` becomes a pure codec returning `Except` (an
uncaught Python exception is the `error` case).
-/

namespace DicomGateway

/-- DICOM tag: a (group, element) pair of 16-bit values
(`pydicom.tag.Tag`). -/
structure DTag where
  group : Nat
  element : Nat
deriving DecidableEq, Repr

/-- Relevant rows of the standard DICOM data dictionary used by
`pydicom.datadict.tag_for_keyword` / `keyword_for_tag` for the keywords this
code touches.  The real dictionary is larger; only entries exercised by the
embedded endpoints are listed, each with its standard tag. -/
def dicomDict : List (String × DTag) :=
  [ ("QueryRetrieveLevel", ⟨0x0008, 0x0052⟩)
  , ("PatientID", ⟨0x0010, 0x0020⟩)
  , ("PatientName", ⟨0x0010, 0x0010⟩)
  , ("StudyInstanceUID", ⟨0x0020, 0x000D⟩)
  , ("SeriesInstanceUID", ⟨0x0020, 0x000E⟩)
  , ("SOPInstanceUID", ⟨0x0008, 0x0018⟩)
  , ("StudyDate", ⟨0x0008, 0x0020⟩)
  , ("StudyDescription", ⟨0x0008, 0x1030⟩)
  , ("ModalitiesInStudy", ⟨0x0008, 0x0061⟩)
  , ("AccessionNumber", ⟨0x0008, 0x0050⟩)
  , ("InstanceNumber", ⟨0x0020, 0x0013⟩)
  , ("Modality", ⟨0x0008, 0x0060⟩)
  , ("SeriesNumber", ⟨0x0020, 0x0011⟩)
  , ("SeriesDescription", ⟨0x0008, 0x103E⟩)
  , ("KVP", ⟨0x0018, 0x0060⟩)
  , ("LUTExplanation", ⟨0x0028, 0x3003⟩)
  , ("LUTData", ⟨0x0028, 0x3006⟩) ]

/-- Embedding of `pydicom.datadict.tag_for_keyword` restricted to the
dictionary rows above: unknown keyword gives `none`. -/
def tag_for_keyword (kw : String) : Option DTag :=
  (dicomDict.find? (fun row => row.1 = kw)).map (fun row => row.2)

/-- Embedding of `pydicom.datadict.keyword_for_tag`. -/
def keyword_for_tag (t : DTag) : Option String :=
  (dicomDict.find? (fun row => row.2 = t)).map (fun row => row.1)

/-- A pydicom `Dataset` used as a C-FIND identifier: an insertion-ordered map
from tags to string values (every value written by the embedded query-builder
code is a string). -/
abbrev Dataset := List (DTag × String)

/-- Embedding of `setattr(identifier, keyword, value)` /
`identifier[tag] = value` on a pydicom dataset: replace the value in place if
the tag is present, otherwise append the element. -/
def dsSet : Dataset → DTag → String → Dataset
  | [], t, v => [(t, v)]
  | (t0, v0) :: rest, t, v =>
    if t0 = t then (t0, v) :: rest else (t0, v0) :: dsSet rest t v

/-- Embedding of reading an attribute from a dataset (`identifier.get(tag)`,
or attribute access guarded by `hasattr`): `none` when the tag is absent. -/
def dsGet : Dataset → DTag → Option String
  | [], _ => none
  | (t0, v0) :: rest, t => if t0 = t then some v0 else dsGet rest t

/-- Convenience: set an attribute by its keyword (total on dictionary
keywords; a keyword outside the dictionary leaves the dataset unchanged,
which never happens for the literal keywords the endpoints use). -/
def dsSetKw (ds : Dataset) (kw : String) (v : String) : Dataset :=
  match tag_for_keyword kw with
  | some t => dsSet ds t v
  | none => ds

/-- Drop the listed characters from both ends of a character list, as Python
`str.strip(chars)` does.  (Character lists are used instead of the `String`
API so that every definition reduces inside the kernel.) -/
def stripCharsList (cs : List Char) (l : List Char) : List Char :=
  ((l.dropWhile (fun c => cs.contains c)).reverse.dropWhile
    (fun c => cs.contains c)).reverse

/-- Split a character list at every occurrence of the separator, as Python
`str.split(sep)` does for a one-character separator. -/
def splitOnCharList (sep : Char) : List Char → List (List Char)
  | [] => [[]]
  | x :: xs =>
    let rest := splitOnCharList sep xs
    if x = sep then [] :: rest
    else
      match rest with
      | [] => [[x]]
      | r :: rs => (x :: r) :: rs

/-- Parse one hex component as Python `int(s, 16)` does for the strings the
endpoints feed it: surrounding whitespace is ignored, an optional `0x` prefix
is accepted, and the digits must be hexadecimal.  A value that `pydicom.Tag`
would reject (above `0xFFFF`) is treated as the generic-exception path of the
source, which skips the filter entry, so it is mapped to `none` here. -/
def parseHexComponent (l : List Char) : Option Nat :=
  let l := stripCharsList [' ', '\t', '\n', '\r'] l
  let l := match l with
    | '0' :: 'x' :: rest => rest
    | '0' :: 'X' :: rest => rest
    | other => other
  if l.isEmpty then none
  else if l.all (fun c => c.isDigit || (c.toLower ≥ 'a' && c.toLower ≤ 'f')) then
    let n := l.foldl (fun acc c =>
      16 * acc + (if c.isDigit then c.toNat - 48 else c.toLower.toNat - 87)) 0
    if n ≤ 0xFFFF then some n else none
  else none

/-- Embedding of the comma-branch of the filter-key parsing:
`key.strip("() ").split(",")` followed by `Tag(int(g,16), int(e,16))`.
Any failure (wrong component count, non-hex digits, out-of-range value)
raises in the source and is caught by the per-entry handler, which skips the
entry; that is `none` here. -/
def parseTagPair (key : String) : Option DTag :=
  let stripped := stripCharsList ['(', ')', ' '] key.data
  match splitOnCharList ',' stripped with
  | [g, e] =>
    match parseHexComponent g, parseHexComponent e with
    | some gn, some en => some ⟨gn, en⟩
    | _, _ => none
  | _ => none

/-- Resolution of one generic-filter key, as done by every endpoint: a key
containing a comma is parsed as a `(gggg,eeee)` pair, any other key is looked
up as a DICOM keyword; failures skip the entry. -/
def resolveFilterKey (key : String) : Option DTag :=
  if key.data.contains ',' then parseTagPair key else tag_for_keyword key

/-- Apply one generic-filter entry to the identifier: on successful key
resolution the value is written (`setattr` / item assignment — both replace
the element for that tag), otherwise the entry is skipped with a warning. -/
def applyFilterEntry (ds : Dataset) (key val : String) : Dataset :=
  match resolveFilterKey key with
  | some t => dsSet ds t val
  | none => ds

/-- Apply a parsed generic-filter map (`filter_dict.items()`, in insertion
order) to the identifier. -/
def applyFilters (ds : Dataset) (filters : List (String × String)) : Dataset :=
  filters.foldl (fun d kv => applyFilterEntry d kv.1 kv.2) ds

/-- The value the generic-filter map assigns to tag `t`, when it assigns one:
the last entry whose key resolves to `t` wins, mirroring repeated `setattr`
calls in iteration order. -/
def lastFilterValue (filters : List (String × String)) (t : DTag) : Option String :=
  (filters.filterMap (fun kv =>
    if resolveFilterKey kv.1 = some t then some kv.2 else none)).getLast?

/-- Base return fields of `find_studies_endpoint` (requested with empty
values so the PACS echoes them back), in source order. -/
def baseStudyReturnFields : List String :=
  [ "StudyInstanceUID", "PatientID", "PatientName", "StudyDate"
  , "StudyDescription", "ModalitiesInStudy", "AccessionNumber" ]

/-- Apply an optional named query parameter: `if param is not None:
identifier.Keyword = param`. -/
def applyNamed (ds : Dataset) (kw : String) (v : Option String) : Dataset :=
  match v with
  | some s => dsSetKw ds kw s
  | none => ds

/-- Embedding of the identifier construction of `find_studies_endpoint`
(api_main.py lines 148-201): query level, mandatory empty return fields,
named query parameters, then the generic filter map (already JSON-decoded;
a malformed JSON string aborts with HTTP 400 before this construction
completes and is outside this pure descriptor builder). -/
def find_studies_identifier
    (patientID studyDate accessionNumber modalitiesInStudy patientName : Option String)
    (filters : Option (List (String × String))) : Dataset :=
  let ds : Dataset := dsSetKw [] "QueryRetrieveLevel" "STUDY"
  let ds := baseStudyReturnFields.foldl (fun d kw => dsSetKw d kw "") ds
  let ds := applyNamed ds "PatientID" patientID
  let ds := applyNamed ds "StudyDate" studyDate
  let ds := applyNamed ds "AccessionNumber" accessionNumber
  let ds := applyNamed ds "ModalitiesInStudy" modalitiesInStudy
  let ds := applyNamed ds "PatientName" patientName
  match filters with
  | some fs => applyFilters ds fs
  | none => ds

/-- Embedding of the identifier construction of `find_instances_in_series`
(api_main.py lines 351-436): IMAGE query level, the two caller-supplied
hierarchy identifiers, the always-requested keys, then the generic filter
map, then the `fields` list (each requested field is written with an empty
value only when the tag is absent or already empty, so a specific filter
value is not clobbered). -/
def find_instances_identifier
    (studyUID seriesUID : String)
    (fields : Option (List String))
    (filters : Option (List (String × String))) : Dataset :=
  let ds : Dataset := dsSetKw [] "QueryRetrieveLevel" "IMAGE"
  let ds := dsSetKw ds "StudyInstanceUID" studyUID
  let ds := dsSetKw ds "SeriesInstanceUID" seriesUID
  let ds := dsSetKw ds "SOPInstanceUID" ""
  let ds := dsSetKw ds "InstanceNumber" ""
  let ds :=
    match filters with
    | some fs => applyFilters ds fs
    | none => ds
  match fields with
  | none => ds
  | some fl =>
    fl.foldl (fun d fieldStr =>
      match (if fieldStr.data.contains ',' then parseTagPair fieldStr
             else tag_for_keyword fieldStr) with
      | none => d
      | some t =>
        if dsGet d t = none ∨ dsGet d t = some "" then dsSet d t "" else d) ds

def patientIDTag : DTag := ⟨0x0010, 0x0020⟩

def studyUIDTag : DTag := ⟨0x0020, 0x000D⟩

def seriesUIDTag : DTag := ⟨0x0020, 0x000E⟩

def lutDataTag : DTag := ⟨0x0028, 0x3006⟩

def lutExplanationTag : DTag := ⟨0x0028, 0x3003⟩

/-! PACS network operations (pacs_operations.py).  The external pynetdicom
calls are summarised by an environment: whether the association establishes,
and what the consumption of the response stream produces — either the full
list of responses or an exception raised on the worker execution context
while the stream is consumed.  The interpreters record the network side
effects they perform, so release discipline is visible in the event trace. -/

/-- Observable side effects of one query/retrieve operation, in order. -/
inductive PacsEvent where
  | associate
  | cfindStream
  | cmoveStream
  | release
deriving DecidableEq, Repr

/-- Python `str.upper()` for the ASCII strings used as query-model
selectors. -/
def pyUpper (s : String) : String := String.mk (s.data.map Char.toUpper)

/-- Environment of one C-FIND call: association outcome and response stream.
Each response is a (status, identifier) pair; `none` in either slot also
models a falsy (empty) dataset, which the source code treats identically to
a missing one. -/
structure CFindEnv where
  established : Bool
  streamResult : Except String (List (Option Nat × Option Dataset))
deriving Repr

/-- Result of one C-FIND call: the returned value (or the propagated
exception) and the trace of network side effects. -/
structure CFindOutcome where
  result : Except String (List Dataset)
  events : List PacsEvent

def studyRootFindUid : String := "1.2.840.10008.5.1.4.1.2.2.1"

def patientRootFindUid : String := "1.2.840.10008.5.1.4.1.2.1.1"

/-- Embedding of `perform_c_find_async` (pacs_operations.py lines 67-151).
An unrecognised query-model selector returns an empty list before any
association is attempted; a failed association logs and returns the empty
result list; an established association consumes the stream in a worker
thread inside a try/except/finally whose finally releases the association,
so the release happens both on normal completion and when the consumption
raises (the exception is re-raised after the release). Only responses with a
pending status (0xFF00 or 0xFF01) and a truthy identifier dataset contribute
to the result. -/
def perform_c_find_async (identifier : Dataset) (query_model_uid : String)
    (env : CFindEnv) : CFindOutcome :=
  let modelUid : String :=
    if pyUpper query_model_uid = "S" then studyRootFindUid
    else if pyUpper query_model_uid = "P" then patientRootFindUid
    else ""
  if pyUpper query_model_uid ≠ "S" ∧ pyUpper query_model_uid ≠ "P" then
    { result := .ok [], events := [] }
  else if env.established then
    if modelUid.data.isEmpty then
      -- line 114: an empty model SOP class UID is only logged; unreachable
      -- for the two recognised selectors
      { result := .ok [], events := [.associate, .release] }
    else
      match env.streamResult with
      | .error e => { result := .error e, events := [.associate, .cfindStream, .release] }
      | .ok responses =>
        let results := responses.foldl (fun acc resp =>
          match resp.1 with
          | some s =>
            if s = 0xFF00 ∨ s = 0xFF01 then
              match resp.2 with
              | some ds => if ds.isEmpty then acc else acc ++ [ds]
              | none => acc
            else acc
          | none => acc) ([] : List Dataset)
        { result := .ok results, events := [.associate, .cfindStream, .release] }
  else
    { result := .ok [], events := [.associate] }

/-- Status dataset of one C-MOVE response: the status code and the three
sub-operation counters, each possibly absent from the dataset. -/
structure MoveStatusDs where
  statusCode : Option Nat
  nCompleted : Option Nat
  nFailed : Option Nat
  nWarning : Option Nat
deriving DecidableEq, Repr

/-- Responses of one C-MOVE call: (status dataset, identifier dataset)
pairs; `none` again also covers a falsy empty dataset. -/
abbrev CMoveResponses := List (Option MoveStatusDs × Option Dataset)

structure CMoveEnv where
  established : Bool
  streamResult : Except String CMoveResponses
deriving Repr

structure CMoveOutcome where
  result : Except String CMoveResponses
  events : List PacsEvent

/-- Embedding of `perform_c_move_async` (pacs_operations.py lines 198-282).
A selector other than the exact string "S" raises a ValueError before any
association is attempted.  A failed association raises ConnectionError.
When established, the response stream is consumed with no try/finally around
it: on normal completion every response is collected and the association is
released afterwards, but an exception raised while the stream is consumed
propagates before the release statement is reached. -/
def perform_c_move_async (identifier : Dataset) (query_model_uid : String)
    (env : CMoveEnv) : CMoveOutcome :=
  if query_model_uid = "S" then
    if env.established then
      match env.streamResult with
      | .ok rs => { result := .ok rs, events := [.associate, .cmoveStream, .release] }
      | .error e => { result := .error e, events := [.associate, .cmoveStream] }
    else
      { result := .error "ConnectionError: no se pudo establecer la asociacion C-MOVE"
      , events := [.associate] }
  else
    { result := .error "ValueError: modelo de consulta no soportado para C-MOVE"
    , events := [] }

/-! Retrieve progress aggregation (api_main.py, `retrieve_instance_via_cmove`
lines 602-632). -/

/-- Accumulator of the aggregation loop: the last truthy status dataset seen
and the three running counters. -/
structure MoveAgg where
  finalStatus : Option MoveStatusDs
  nCompleted : Nat
  nFailed : Nat
  nWarning : Nat
deriving DecidableEq, Repr

/-- One step of the loop over `move_responses`: a truthy status dataset
becomes the candidate final status and each counter is replaced by the
reported value when the dataset carries it (`status_ds_item.get(key,
current)`), keeping the current value otherwise. -/
def aggStep (acc : MoveAgg) (resp : Option MoveStatusDs × Option Dataset) : MoveAgg :=
  match resp.1 with
  | some ds =>
    { finalStatus := some ds
    , nCompleted := ds.nCompleted.getD acc.nCompleted
    , nFailed := ds.nFailed.getD acc.nFailed
    , nWarning := ds.nWarning.getD acc.nWarning }
  | none => acc

def aggregate_move_responses (rs : CMoveResponses) : MoveAgg :=
  rs.foldl aggStep { finalStatus := none, nCompleted := 0, nFailed := 0, nWarning := 0 }

/-- Outcome classes of the endpoint: HTTP 202 with a success message, HTTP
202 with a pending message, or a raised HTTPException (502 when the PACS
reports failure or the final status is unusable). -/
inductive CMoveHttpOutcome where
  | success (completed failed warning : Nat)
  | pendingReply (completed failed warning : Nat)
  | httpError (status : Nat)
deriving DecidableEq, Repr

/-- Embedding of the interpretation of the aggregated C-MOVE responses
(api_main.py lines 607-632): the last truthy status dataset determines the
terminal state by its status code — 0x0000 success, 0xFF00 pending, any
other code (or no usable status at all) HTTP 502. -/
def retrieve_instance_outcome (rs : CMoveResponses) : CMoveHttpOutcome :=
  let agg := aggregate_move_responses rs
  match agg.finalStatus with
  | some ds =>
    match ds.statusCode with
    | some s =>
      if s = 0x0000 then .success agg.nCompleted agg.nFailed agg.nWarning
      else if s = 0xFF00 then .pendingReply agg.nCompleted agg.nFailed agg.nWarning
      else .httpError 502
    | none => .httpError 502
  | none => .httpError 502

/-- Modelled from the claim wording, for comparison with the code: the
maximum over all reports of one reported counter. -/
def reportedMax (proj : MoveStatusDs → Option Nat) (rs : CMoveResponses) : Nat :=
  (rs.filterMap (fun resp => resp.1.bind proj)).foldl max 0

/-- The value the loop actually keeps for one counter: the value carried by
the last truthy status dataset that carries it. -/
def lastReported (proj : MoveStatusDs → Option Nat) (rs : CMoveResponses) : Option Nat :=
  (rs.filterMap (fun resp => resp.1.bind proj)).getLast?

/-! Value codec (api_main.py, `find_instances_in_series` lines 452-543):
conversion of one typed DICOM element of a C-FIND result dataset into a
JSON-safe value.  Sequence items descend exactly one level (the per-item
conversion of lines 485-514 has no sequence branch of its own), so the
element model is stratified: `PyVal` for values inside items and `TopVal`
adding the sequence case for top-level values. -/

/-- Raw pydicom element value, by its observable shape: `None`, a string
value (by its `str` image), a MultiValue (each component by its `str`
image), or a byte string. -/
inductive PyVal where
  | noneV
  | strV (s : String)
  | multiV (vs : List String)
  | bytesV (bs : List Nat)
deriving DecidableEq, Repr

/-- Element inside a sequence item: tag, VR, value. -/
structure DElem where
  tag : DTag
  vr : String
  value : PyVal
deriving DecidableEq, Repr

/-- Top-level element value: a flat value or a pydicom `Sequence` (a list of
items, each item being a dataset, i.e. a list of elements). -/
inductive TopVal where
  | flat (v : PyVal)
  | seqV (items : List (List DElem))
deriving DecidableEq, Repr

structure TopElem where
  tag : DTag
  vr : String
  value : TopVal
deriving DecidableEq, Repr

/-- Canonical rendering used where the source calls `str(value)` on a value
that is not `None`.  A plain string renders as itself; the Python spellings
of MultiValue and bytes renderings are modelled canonically, since no
behaviour verified here depends on them. -/
def pyStr : PyVal → String
  | .noneV => "None"
  | .strV s => s
  | .multiV vs => "[" ++ String.intercalate ", " vs ++ "]"
  | .bytesV bs => "bytes:" ++ toString bs.length

/-- Python `len(value)` for the value shapes that can occur at the bulk
LUT-data attribute (`len(item_element.value) if item_element.value is not
None else 0`). -/
def pyLen : PyVal → Nat
  | .noneV => 0
  | .strV s => s.data.length
  | .multiV vs => vs.length
  | .bytesV bs => bs.length

/-- Python `int(s)` on a string: surrounding ASCII whitespace is stripped,
one optional sign is allowed, and the remainder must be a nonempty run of
decimal digits (PEP 515 underscores are not modelled; none of the values in
this development use them).  The result `none` models the ValueError. -/
def pyIntOfStr (s : String) : Option Int :=
  let l := stripCharsList [' ', '\t', '\n', '\r'] s.data
  let signAndDigits : Bool × List Char :=
    match l with
    | '-' :: rest => (true, rest)
    | '+' :: rest => (false, rest)
    | other => (false, other)
  let sign := signAndDigits.1
  let digits := signAndDigits.2
  if digits.isEmpty then none
  else if digits.all Char.isDigit then
    let n : Nat := digits.foldl (fun acc c => 10 * acc + (c.toNat - 48)) 0
    some (if sign then -(n : Int) else (n : Int))
  else none

/-- Python `str.strip()` (ASCII whitespace) used after byte-string
decoding. -/
def pyStripStr (s : String) : String :=
  String.mk (stripCharsList [' ', '\t', '\n', '\r'] s.data)

/-- External Python coercions kept abstract by this embedding: `float`
parsing composed with `str` of the resulting float (for the DS/FL/FD
branches), and byte-string text decoding under the detected character set.
The value `none` models the exception path of the corresponding call. -/
structure PyCoerce where
  floatRepr : String → Option String
  decodeBytes : List Nat → Option String

/-- The f-string of api_main.py line 489. -/
def lutDataMarker (n : Nat) : String :=
  "Binary LUT data (length " ++ toString n ++ "), not included"

/-- The f-strings of api_main.py lines 511 and 539. -/
def binaryDataMarker (vr : String) (n : Nat) : String :=
  "Binary data (VR: " ++ vr ++ ", length " ++ toString n ++ "), not included"

/-- The f-string of api_main.py line 537. -/
def undecodableMarker (vr : String) (n : Nat) : String :=
  "Undecodable text or binary data (VR: " ++ vr ++ ", length " ++ toString n ++ ")"

/-- Transport value stored into the response `headers` map.  The output of
`parse_lut_explanation` is kept opaque (free-text calibration parsing is an
external collaborator), carrying the raw input it was given. -/
inductive TValue where
  | nullV
  | strV (s : String)
  | intV (n : Int)
  | floatV (r : String)
  | listV (vs : List TValue)
  | mapV (entries : List (String × TValue))
  | lutExplanationV (raw : Option String)

/-- Lower-case four-digit hex rendering of one tag component, as in the
pydicom `str(Tag)` format. -/
def hex4 (n : Nat) : String :=
  let d := fun (k : Nat) => if k < 10 then Char.ofNat (48 + k) else Char.ofNat (87 + k)
  String.mk [d (n / 4096 % 16), d (n / 256 % 16), d (n / 16 % 16), d (n % 16)]

def tagStr (t : DTag) : String :=
  "(" ++ hex4 t.group ++ ", " ++ hex4 t.element ++ ")"

/-- Key under which one element lands in the output map:
`keyword_for_tag(tag) or str(tag)`. -/
def itemKey (t : DTag) : String :=
  match keyword_for_tag t with
  | some kw => kw
  | none => tagStr t

/-- Embedding of the per-item-element conversion (api_main.py lines
486-514), in source branch order: the bulk LUT-data tag renders as a length
marker, the LUT-explanation tag goes through the opaque explanation parser,
then the VR-directed branches, then the byte-string marker, `None`, and the
final `str` fallback.  The `error` case models an uncaught Python exception
(there is no per-element handler in the source). -/
def convert_item_element (co : PyCoerce) (e : DElem) : Except String TValue :=
  if e.tag = lutDataTag then
    .ok (.strV (lutDataMarker (pyLen e.value)))
  else if e.tag = lutExplanationTag then
    .ok (.lutExplanationV (match e.value with | .noneV => none | v => some (pyStr v)))
  else if e.vr = "PN" then
    .ok (.strV (match e.value with | .noneV => "" | v => pyStr v))
  else if e.vr = "DA" ∨ e.vr = "DT" ∨ e.vr = "TM" then
    .ok (.strV (match e.value with | .noneV => "" | v => pyStr v))
  else if e.vr = "IS" then
    match e.value with
    | .multiV vs => do
      let ns ← vs.mapM (fun v =>
        match pyIntOfStr v with
        | some n => Except.ok (TValue.strV (toString n))
        | none => Except.error "ValueError: invalid literal for int")
      Except.ok (.listV ns)
    | .noneV => .ok .nullV
    | v =>
      match pyIntOfStr (pyStr v) with
      | some n => .ok (.strV (toString n))
      | none => .error "ValueError: invalid literal for int"
  else if e.vr = "DS" then
    match e.value with
    | .multiV vs => do
      let ns ← vs.mapM (fun v =>
        match co.floatRepr v with
        | some r => Except.ok (TValue.strV r)
        | none => Except.error "ValueError: could not convert string to float")
      Except.ok (.listV ns)
    | .noneV => .ok .nullV
    | v =>
      match co.floatRepr (pyStr v) with
      | some r => .ok (.strV r)
      | none => .error "ValueError: could not convert string to float"
  else if e.vr = "US" ∨ e.vr = "SS" ∨ e.vr = "SL" ∨ e.vr = "UL" ∨ e.vr = "AT" then
    match e.value with
    | .multiV vs => do
      let ns ← vs.mapM (fun v =>
        match pyIntOfStr v with
        | some n => Except.ok (TValue.intV n)
        | none => Except.error "ValueError: invalid literal for int")
      Except.ok (.listV ns)
    | .noneV => .ok .nullV
    | v =>
      match pyIntOfStr (pyStr v) with
      | some n => .ok (.intV n)
      | none => .error "ValueError: invalid literal for int"
  else if e.vr = "FL" ∨ e.vr = "FD" then
    match e.value with
    | .multiV vs => do
      let ns ← vs.mapM (fun v =>
        match co.floatRepr v with
        | some r => Except.ok (TValue.floatV r)
        | none => Except.error "ValueError: could not convert string to float")
      Except.ok (.listV ns)
    | .noneV => .ok .nullV
    | v =>
      match co.floatRepr (pyStr v) with
      | some r => .ok (.floatV r)
      | none => .error "ValueError: could not convert string to float"
  else
    match e.value with
    | .bytesV bs => .ok (.strV (binaryDataMarker e.vr bs.length))
    | .noneV => .ok .nullV
    | v => .ok (.strV (pyStr v))

/-- Conversion of one sequence item (the inner loop of lines 485-515) into
its attribute map.  Tags are unique within a pydicom dataset, so the
item-dict construction is modelled by a per-element map. -/
def convert_item (co : PyCoerce) : List DElem → Except String (List (String × TValue))
  | [] => .ok []
  | e :: rest => do
    let v ← convert_item_element co e
    let tail ← convert_item co rest
    pure ((itemKey e.tag, v) :: tail)

/-- Embedding of the top-level per-element conversion (api_main.py lines
480-541), in source branch order.  A sequence VR converts each item by the
item rules; the top level additionally attempts character-set decoding of
byte strings outside the opaque-binary VRs, falling back to a placeholder on
failure.  The shape mismatch of a sequence value under a non-sequence VR
cannot occur for pydicom elements and maps to the error case. -/
def convert_element (co : PyCoerce) (e : TopElem) : Except String TValue :=
  if e.vr = "SQ" then
    match e.value with
    | .seqV items => do
      let ms ← items.mapM (fun item => convert_item co item)
      Except.ok (.listV (ms.map (fun m => TValue.mapV m)))
    | .flat _ => .ok (.listV [])
  else
    match e.value with
    | .seqV _ => .error "TypeError: sequence value under a non-sequence VR"
    | .flat v =>
      if e.vr = "PN" then
        .ok (.strV (match v with | .noneV => "" | w => pyStr w))
      else if e.vr = "DA" ∨ e.vr = "DT" ∨ e.vr = "TM" then
        .ok (.strV (match v with | .noneV => "" | w => pyStr w))
      else if e.vr = "IS" then
        match v with
        | .multiV vs => do
          let ns ← vs.mapM (fun w =>
            match pyIntOfStr w with
            | some n => Except.ok (TValue.strV (toString n))
            | none => Except.error "ValueError: invalid literal for int")
          Except.ok (.listV ns)
        | .noneV => .ok .nullV
        | w =>
          match pyIntOfStr (pyStr w) with
          | some n => .ok (.strV (toString n))
          | none => .error "ValueError: invalid literal for int"
      else if e.vr = "DS" then
        match v with
        | .multiV vs => do
          let ns ← vs.mapM (fun w =>
            match co.floatRepr w with
            | some r => Except.ok (TValue.strV r)
            | none => Except.error "ValueError: could not convert string to float")
          Except.ok (.listV ns)
        | .noneV => .ok .nullV
        | w =>
          match co.floatRepr (pyStr w) with
          | some r => .ok (.strV r)
          | none => .error "ValueError: could not convert string to float"
      else if e.vr = "US" ∨ e.vr = "SS" ∨ e.vr = "SL" ∨ e.vr = "UL" ∨ e.vr = "AT" then
        match v with
        | .multiV vs => do
          let ns ← vs.mapM (fun w =>
            match pyIntOfStr w with
            | some n => Except.ok (TValue.intV n)
            | none => Except.error "ValueError: invalid literal for int")
          Except.ok (.listV ns)
        | .noneV => .ok .nullV
        | w =>
          match pyIntOfStr (pyStr w) with
          | some n => .ok (.intV n)
          | none => .error "ValueError: invalid literal for int"
      else if e.vr = "FL" ∨ e.vr = "FD" then
        match v with
        | .multiV vs => do
          let ns ← vs.mapM (fun w =>
            match co.floatRepr w with
            | some r => Except.ok (TValue.floatV r)
            | none => Except.error "ValueError: could not convert string to float")
          Except.ok (.listV ns)
        | .noneV => .ok .nullV
        | w =>
          match co.floatRepr (pyStr w) with
          | some r => .ok (.floatV r)
          | none => .error "ValueError: could not convert string to float"
      else
        match v with
        | .bytesV bs =>
          if e.vr = "OB" ∨ e.vr = "OW" ∨ e.vr = "OF" ∨ e.vr = "OD" ∨ e.vr = "OL"
              ∨ e.vr = "OV" ∨ e.vr = "UN" ∨ e.vr = "PixelData" then
            .ok (.strV (binaryDataMarker e.vr bs.length))
          else
            match co.decodeBytes bs with
            | some s => .ok (.strV (pyStripStr s))
            | none => .ok (.strV (undecodableMarker e.vr bs.length))
        | .noneV => .ok .nullV
        | w => .ok (.strV (pyStr w))

/-- Conversion of one full result record under `fields=None` (lines 466-543
with `tags_to_populate_headers` covering every element of the response
dataset): each element is converted and stored under its keyword or tag
string.  An exception escaping any single element conversion aborts the
whole record — it is caught only by the surrounding endpoint handler, which
turns it into an HTTP 500 for the entire request. -/
def convert_record (co : PyCoerce) : List TopElem → Except String (List (String × TValue))
  | [] => .ok []
  | e :: rest => do
    let v ← convert_element co e
    let tail ← convert_record co rest
    pure ((itemKey e.tag, v) :: tail)

/-! Storage receiver (dicom_scp.py, `handle_store` lines 46-82). -/

/-- Incoming C-STORE dataset as seen by the handler: the SOP Instance UID if
the attribute is present, the stored object content, and whether the
metadata reconstruction or `save_as` call raises (disk or encoding
failure). -/
structure StoreDs where
  sopInstanceUID : Option String
  content : String
  saveRaises : Bool
deriving DecidableEq, Repr

/-- File system visible to the receiver: path to file content, unique
paths. -/
abbrev FileSys := List (String × String)

/-- Writing a file: overwrite in place when the path exists, create it
otherwise. -/
def fsWrite : FileSys → String → String → FileSys
  | [], p, c => [(p, c)]
  | (p0, c0) :: rest, p, c =>
    if p0 = p then (p0, c) :: rest else (p0, c0) :: fsWrite rest p c

def fsGet : FileSys → String → Option String
  | [], _ => none
  | (p0, c0) :: rest, p => if p0 = p then some c0 else fsGet rest p

/-- Number of directory entries at one path. -/
def pathCount (fs : FileSys) (p : String) : Nat :=
  fs.countP (fun e => e.1 = p)

/-- Embedding of `handle_store`: reject with 0xA801 when the dataset has no
SOP Instance UID; otherwise write the object to
`storage_dir / (SOPInstanceUID + ".dcm")` and answer 0x0000; any exception
in the body is caught and answered with 0xC001 without propagating. -/
def handle_store (storageDir : String) (fs : FileSys) (ds : StoreDs) : Nat × FileSys :=
  match ds.sopInstanceUID with
  | none => (0xA801, fs)
  | some uid =>
    if ds.saveRaises then (0xC001, fs)
    else (0x0000, fsWrite fs (storageDir ++ "/" ++ uid ++ ".dcm") ds.content)

/-- Environment of the C1 counterexample: the association establishes and an
exception is raised while the C-MOVE response stream is consumed. -/
def cmoveLeakEnv : CMoveEnv :=
  { established := true
  , streamResult := .error "ConnectionAbortedError: connection closed during C-MOVE" }

/-- Environment of the C2 counterexample: the association to the PACS never
establishes. -/
def assocFailEnv : CFindEnv := { established := false, streamResult := .ok [] }

/-- Report sequence of the C5 counterexample: a pending report with
completed = 3 followed by a success report carrying completed = 2. -/
def cmoveShrinkingReports : CMoveResponses :=
  [ (some ⟨some 0xFF00, some 3, some 0, some 0⟩, none)
  , (some ⟨some 0x0000, some 2, some 0, some 0⟩, none) ]

/-- Report sequence of the example given with claim C5. -/
def cmoveClaimExampleReports : CMoveResponses :=
  [ (some ⟨some 0xFF00, some 1, some 0, some 0⟩, none)
  , (some ⟨some 0xFF00, some 3, some 1, some 0⟩, none)
  , (some ⟨some 0x0000, some 4, some 1, some 0⟩, none) ]

/-- Coercion instance with both external coercions failing; the claims
about absent values and markers do not depend on it. -/
def noCoerce : PyCoerce :=
  { floatRepr := fun _ => none, decodeBytes := fun _ => none }

end DicomGateway

namespace DicomGateway



theorem dsGet_dsSet (ds : Dataset) (t t' : DTag) (v : String) :
    dsGet (dsSet ds t v) t' = if t' = t then some v else dsGet ds t' := by
  induction ds with
  | nil =>
    simp only [dsSet, dsGet]
    by_cases h : t = t'
    · subst h; simp
    · rw [if_neg h, if_neg (fun hh => h hh.symm)]
  | cons hd tl ih =>
    obtain ⟨t0, v0⟩ := hd
    by_cases h0 : t0 = t
    · subst h0
      simp only [dsSet, if_pos rfl, dsGet]
      by_cases h : t0 = t'
      · subst h; simp
      · rw [if_neg h, if_neg (fun hh => h hh.symm), if_neg h]
    · simp only [dsSet, if_neg h0, dsGet]
      by_cases h : t0 = t'
      · subst h
        rw [if_pos rfl, if_neg h0, if_pos rfl]
      · rw [if_neg h, if_neg h, ih]

theorem dsGet_applyFilterEntry (ds : Dataset) (k v : String) (t : DTag) :
    dsGet (applyFilterEntry ds k v) t =
      if resolveFilterKey k = some t then some v else dsGet ds t := by
  unfold applyFilterEntry
  cases hk : resolveFilterKey k with
  | none => simp
  | some t2 =>
    change dsGet (dsSet ds t2 v) t = if some t2 = some t then some v else dsGet ds t
    rw [dsGet_dsSet]
    by_cases h : t = t2
    · subst h; simp
    · rw [if_neg h, if_neg (fun hh : some t2 = some t => h (Option.some.inj hh).symm)]

theorem dsGet_applyFilters (fs : List (String × String)) (ds : Dataset) (t : DTag) :
    dsGet (applyFilters ds fs) t = (lastFilterValue fs t).elim (dsGet ds t) some := by
  induction fs generalizing ds with
  | nil => simp [applyFilters, lastFilterValue]
  | cons kv rest ih =>
    obtain ⟨k, v⟩ := kv
    have step : applyFilters ds ((k, v) :: rest) = applyFilters (applyFilterEntry ds k v) rest := rfl
    rw [step, ih]
    by_cases hk : resolveFilterKey k = some t
    · cases hrest : rest.filterMap
          (fun kv => if resolveFilterKey kv.1 = some t then some kv.2 else none) with
      | nil =>
        have h1 : lastFilterValue rest t = none := by simp [lastFilterValue, hrest]
        have h2 : lastFilterValue ((k, v) :: rest) t = some v := by
          simp [lastFilterValue, List.filterMap_cons, hk, hrest]
        rw [h1, h2]
        simp [dsGet_applyFilterEntry, hk]
      | cons c cs =>
        have h1 : lastFilterValue rest t = (c :: cs).getLast? := by
          simp [lastFilterValue, hrest]
        have h2 : lastFilterValue ((k, v) :: rest) t = (c :: cs).getLast? := by
          simp only [lastFilterValue, List.filterMap_cons, hk, if_pos rfl, hrest]
          exact List.getLast?_cons_cons
        rw [h1, h2]
        cases hgl : (c :: cs).getLast? with
        | none => simp at hgl
        | some w => rfl
    · have hfm : lastFilterValue ((k, v) :: rest) t = lastFilterValue rest t := by
        simp [lastFilterValue, List.filterMap_cons, hk]
      rw [hfm]
      cases hlast : lastFilterValue rest t with
      | none => simp [dsGet_applyFilterEntry, hk]
      | some w => rfl



theorem dsGet_find_studies_base (pid sd an mis pn : Option String) :
    dsGet (find_studies_identifier pid sd an mis pn none) patientIDTag =
      some (pid.getD "") := by
  cases pid <;> cases sd <;> cases an <;> cases mis <;> cases pn <;>
    simp [find_studies_identifier, applyNamed, dsSetKw, tag_for_keyword, dicomDict,
      baseStudyReturnFields, dsGet_dsSet, patientIDTag]



theorem dsGet_find_instances_base (study series : String) :
    dsGet (find_instances_identifier study series none none) seriesUIDTag = some series
    ∧ dsGet (find_instances_identifier study series none none) studyUIDTag = some study := by
  constructor <;>
    simp [find_instances_identifier, dsSetKw, tag_for_keyword, dicomDict,
      dsGet_dsSet, seriesUIDTag, studyUIDTag]

theorem find_studies_identifier_some (pid sd an mis pn : Option String)
    (fs : List (String × String)) :
    find_studies_identifier pid sd an mis pn (some fs)
      = applyFilters (find_studies_identifier pid sd an mis pn none) fs := rfl

theorem find_instances_identifier_some (study series : String)
    (fs : List (String × String)) :
    find_instances_identifier study series none (some fs)
      = applyFilters (find_instances_identifier study series none none) fs := rfl

/-- Claim C3: later sources win when building the studies query descriptor —
the generic-filter value overrides the named-filter value, which overrides
the mandatory empty default; in particular with default `PatientID=""`,
named filter `PatientID="A1"` and generic filter `{"PatientID": "B2"}` the
built descriptor carries `PatientID = "B2"`. -/
theorem c3_studies_filter_precedence :
    (∀ (pid sd an mis pn : Option String) (fs : List (String × String)) (v : String),
        lastFilterValue fs patientIDTag = some v →
        dsGet (find_studies_identifier pid sd an mis pn (some fs)) patientIDTag = some v)
    ∧ (∀ (pid sd an mis pn : Option String) (fs : List (String × String)),
        lastFilterValue fs patientIDTag = none →
        dsGet (find_studies_identifier pid sd an mis pn (some fs)) patientIDTag
          = some (pid.getD ""))
    ∧ dsGet (find_studies_identifier (some "A1") none none none none
        (some [("PatientID", "B2")])) patientIDTag = some "B2" := by
  refine ⟨?_, ?_, ?_⟩
  · intro pid sd an mis pn fs v h
    rw [find_studies_identifier_some, dsGet_applyFilters, h]
    rfl
  · intro pid sd an mis pn fs h
    rw [find_studies_identifier_some, dsGet_applyFilters, h]
    exact dsGet_find_studies_base pid sd an mis pn
  · decide

/-- Witness for C3 at a concrete input. -/
theorem c3_studies_filter_precedence_witness :
    dsGet (find_studies_identifier none none none none none (some [("PatientID", "Z")]))
      patientIDTag = some "Z" :=
  c3_studies_filter_precedence.1 none none none none none [("PatientID", "Z")] "Z" (by decide)



/-- Counterexample for claim C4: at IMAGE level with caller-supplied
`SeriesInstanceUID = "9.8.7"`, the generic filter `{"SeriesInstanceUID": ""}`
erases the hierarchy identifier — the built descriptor carries the empty
string instead of the caller value. -/
theorem c4_hierarchy_override_counterexample :
    dsGet (find_instances_identifier "1.2.3" "9.8.7" none
        (some [("SeriesInstanceUID", "")])) seriesUIDTag = some ""
    ∧ dsGet (find_instances_identifier "1.2.3" "9.8.7" none
        (some [("SeriesInstanceUID", "")])) seriesUIDTag ≠ some "9.8.7" := by
  constructor
  · decide
  · decide

/-- Claim C4 (amended): the generic filter map is applied after the
hierarchy identifiers and overwrites them.  The built IMAGE-level descriptor
carries the caller-supplied StudyInstanceUID and SeriesInstanceUID exactly
when no generic-filter entry resolves to those attributes; an entry naming
one of them (even with an empty or different value) replaces the
caller-supplied value. -/
theorem c4_hierarchy_scoping :
    (∀ (study series : String) (fs : List (String × String)),
        lastFilterValue fs seriesUIDTag = none →
        dsGet (find_instances_identifier study series none (some fs)) seriesUIDTag
          = some series)
    ∧ (∀ (study series : String) (fs : List (String × String)),
        lastFilterValue fs studyUIDTag = none →
        dsGet (find_instances_identifier study series none (some fs)) studyUIDTag
          = some study)
    ∧ (∀ (study series : String) (fs : List (String × String)) (v : String),
        lastFilterValue fs seriesUIDTag = some v →
        dsGet (find_instances_identifier study series none (some fs)) seriesUIDTag
          = some v) := by
  refine ⟨?_, ?_, ?_⟩
  · intro study series fs h
    rw [find_instances_identifier_some, dsGet_applyFilters, h]
    exact (dsGet_find_instances_base study series).1
  · intro study series fs h
    rw [find_instances_identifier_some, dsGet_applyFilters, h]
    exact (dsGet_find_instances_base study series).2
  · intro study series fs v h
    rw [find_instances_identifier_some, dsGet_applyFilters, h]
    rfl

/-- Witness for C4 at a concrete input. -/
theorem c4_hierarchy_scoping_witness :
    dsGet (find_instances_identifier "1.2.3" "9.8.7" none (some [("KVP", "70")]))
      seriesUIDTag = some "9.8.7" :=
  c4_hierarchy_scoping.1 "1.2.3" "9.8.7" [("KVP", "70")] (by decide)



/-- Counterexample for claim C1: in `perform_c_move_async`, when the
association is established and consuming the response stream raises, the
exception propagates without the association ever being released — the event
trace ends after the stream consumption and contains no release. -/
theorem c1_cmove_release_leak_counterexample :
    cmoveLeakEnv.established = true
    ∧ (perform_c_move_async [] "S" cmoveLeakEnv).events = [.associate, .cmoveStream]
    ∧ PacsEvent.release ∉ (perform_c_move_async [] "S" cmoveLeakEnv).events
    ∧ (perform_c_move_async [] "S" cmoveLeakEnv).result
        = .error "ConnectionAbortedError: connection closed during C-MOVE" :=
  ⟨rfl, rfl, by decide, rfl⟩

/-- Claim C1 (amended): the guaranteed-release discipline holds for queries
but not for retrieves.  For `perform_c_find_async` every execution that
attempts and establishes the association releases it, on normal completion
and when the worker-context stream consumption raises (try/finally).  For
`perform_c_move_async` the association is released only when the response
stream is consumed without an exception; a worker-context exception
propagates with the association left open. -/
theorem c1_association_release_discipline :
    (∀ (ident : Dataset) (m : String) (env : CFindEnv),
        env.established = true →
        PacsEvent.associate ∈ (perform_c_find_async ident m env).events →
        PacsEvent.release ∈ (perform_c_find_async ident m env).events)
    ∧ (∀ (ident : Dataset) (env : CMoveEnv) (rs : CMoveResponses),
        env.established = true → env.streamResult = .ok rs →
        PacsEvent.release ∈ (perform_c_move_async ident "S" env).events)
    ∧ (∀ (ident : Dataset) (env : CMoveEnv) (e : String),
        env.established = true → env.streamResult = .error e →
        PacsEvent.release ∉ (perform_c_move_async ident "S" env).events) := by
  refine ⟨?_, ?_, ?_⟩
  · intro ident m env hest hassoc
    by_cases hS : pyUpper m = "S"
    · simp only [perform_c_find_async, hS] at hassoc ⊢
      cases hsr : env.streamResult <;>
        simp [hest, hsr, studyRootFindUid] at hassoc ⊢
    · by_cases hP : pyUpper m = "P"
      · simp only [perform_c_find_async, hS, hP] at hassoc ⊢
        cases hsr : env.streamResult <;>
          simp [hest, hsr, patientRootFindUid] at hassoc ⊢
      · simp [perform_c_find_async, hS, hP] at hassoc
  · intro ident env rs hest hsr
    simp [perform_c_move_async, hest, hsr]
  · intro ident env e hest hsr
    simp [perform_c_move_async, hest, hsr]

/-- Witness for C1 at concrete inputs. -/
theorem c1_association_release_discipline_witness :
    PacsEvent.release ∈ (perform_c_find_async [] "S" ⟨true, .ok []⟩).events
    ∧ PacsEvent.release ∈ (perform_c_move_async [] "S" ⟨true, .ok []⟩).events
    ∧ PacsEvent.release ∉ (perform_c_move_async [] "S" ⟨true, .error "boom"⟩).events :=
  ⟨c1_association_release_discipline.1 [] "S" ⟨true, .ok []⟩ rfl (by decide),
   c1_association_release_discipline.2.1 [] ⟨true, .ok []⟩ [] rfl rfl,
   c1_association_release_discipline.2.2 [] ⟨true, .error "boom"⟩ "boom" rfl rfl⟩



/-- Counterexample for claim C2: a query whose association fails to
establish returns a plain successful empty list — no exception propagates
and no error indicator of any kind accompanies the result, so the outcome
is indistinguishable from a successful query with no matches. -/
theorem c2_assoc_failure_counterexample :
    (perform_c_find_async [] "S" assocFailEnv).result = .ok ([] : List Dataset)
    ∧ (perform_c_find_async [] "S" assocFailEnv).result.isOk = true
    ∧ (perform_c_find_async [] "S" assocFailEnv).events = [.associate] :=
  ⟨rfl, rfl, rfl⟩

/-- Claim C2 (amended): for every query whose association fails to
establish, `perform_c_find_async` logs the failure and returns the ordinary
empty result list with no surfaced error — the `raise ConnectionError` for
this case is commented out in the source — so the caller cannot distinguish
the failure from a successful query with no matches. -/
theorem c2_assoc_failure_plain_empty :
    ∀ (ident : Dataset) (m : String) (env : CFindEnv),
      env.established = false →
      (pyUpper m = "S" ∨ pyUpper m = "P") →
      (perform_c_find_async ident m env).result = .ok []
      ∧ (perform_c_find_async ident m env).events = [.associate] := by
  intro ident m env hest hm
  cases hm with
  | inl h => constructor <;> simp [perform_c_find_async, h, hest]
  | inr h =>
    by_cases hS : pyUpper m = "S"
    · constructor <;> simp [perform_c_find_async, hS, hest]
    · constructor <;> simp [perform_c_find_async, hS, h, hest]

/-- Witness for C2 at a concrete input. -/
theorem c2_assoc_failure_plain_empty_witness :
    (perform_c_find_async [] "P" ⟨false, .ok []⟩).result = .ok []
    ∧ (perform_c_find_async [] "P" ⟨false, .ok []⟩).events = [.associate] :=
  c2_assoc_failure_plain_empty [] "P" ⟨false, .ok []⟩ rfl (by decide)

/-- Claim C10: a query whose query-model selector is neither "S" nor "P"
(case-insensitively) returns an empty result list immediately — no
association is attempted (the event trace is empty) and no error is
raised. -/
theorem c10_unknown_query_model :
    ∀ (ident : Dataset) (m : String) (env : CFindEnv),
      pyUpper m ≠ "S" → pyUpper m ≠ "P" →
      (perform_c_find_async ident m env).result = .ok []
      ∧ (perform_c_find_async ident m env).events = []
      ∧ PacsEvent.associate ∉ (perform_c_find_async ident m env).events := by
  intro ident m env hS hP
  refine ⟨?_, ?_, ?_⟩ <;> simp [perform_c_find_async, hS, hP]

/-- Witness for C10 at a concrete input (selector "x" upper-cases to "X"). -/
theorem c10_unknown_query_model_witness :
    (perform_c_find_async [] "x" ⟨true, .ok []⟩).result = .ok []
    ∧ (perform_c_find_async [] "x" ⟨true, .ok []⟩).events = []
    ∧ PacsEvent.associate ∉ (perform_c_find_async [] "x" ⟨true, .ok []⟩).events :=
  c10_unknown_query_model [] "x" ⟨true, .ok []⟩ (by decide) (by decide)



theorem foldl_aggStep_spec (rs : CMoveResponses) (acc : MoveAgg) :
    rs.foldl aggStep acc =
      { finalStatus := ((rs.filterMap (fun r => r.1)).getLast?).elim acc.finalStatus some
      , nCompleted := ((rs.filterMap (fun r => r.1.bind (fun d => d.nCompleted))).getLast?).getD acc.nCompleted
      , nFailed := ((rs.filterMap (fun r => r.1.bind (fun d => d.nFailed))).getLast?).getD acc.nFailed
      , nWarning := ((rs.filterMap (fun r => r.1.bind (fun d => d.nWarning))).getLast?).getD acc.nWarning } := by
  induction rs using List.reverseRecOn generalizing acc with
  | nil => simp
  | append_singleton l r ih =>
    rw [List.foldl_append, List.foldl_cons, List.foldl_nil, ih]
    cases hr1 : r.1 with
    | none =>
      simp [aggStep, hr1, List.filterMap_append]
    | some d =>
      cases hc : d.nCompleted <;> cases hf : d.nFailed <;> cases hw : d.nWarning <;>
        simp [aggStep, hr1, hc, hf, hw, List.filterMap_append]



/-- Counterexample for claim C5: the aggregation keeps the counter of the
last report, not the maximum over all reports — on a report sequence whose
completed counter shrinks from 3 to 2, the outcome reports 2 while the
maximum is 3. -/
theorem c5_last_not_max_counterexample :
    (aggregate_move_responses cmoveShrinkingReports).nCompleted = 2
    ∧ reportedMax (fun d => d.nCompleted) cmoveShrinkingReports = 3
    ∧ (aggregate_move_responses cmoveShrinkingReports).nCompleted
        ≠ reportedMax (fun d => d.nCompleted) cmoveShrinkingReports
    ∧ retrieve_instance_outcome cmoveShrinkingReports = .success 2 0 0 := by
  refine ⟨by decide, by decide, by decide, by decide⟩

/-- Claim C5 (amended): each outcome counter equals the value carried by the
last report that carries it (cumulative last-report-wins, which coincides
with the maximum only when the reported counters never decrease), and the
terminal state is decided by the status code of the last report; on the
example sequence (PENDING 1/0/0, PENDING 3/1/0, SUCCESS 4/1/0) the outcome
is SUCCESS with completed = 4, failed = 1, warning = 0. -/
theorem c5_retrieve_aggregation :
    (∀ rs : CMoveResponses,
        (aggregate_move_responses rs).nCompleted
          = (lastReported (fun d => d.nCompleted) rs).getD 0
        ∧ (aggregate_move_responses rs).nFailed
            = (lastReported (fun d => d.nFailed) rs).getD 0
        ∧ (aggregate_move_responses rs).nWarning
            = (lastReported (fun d => d.nWarning) rs).getD 0
        ∧ (aggregate_move_responses rs).finalStatus
            = (rs.filterMap (fun r => r.1)).getLast?)
    ∧ retrieve_instance_outcome cmoveClaimExampleReports = .success 4 1 0 := by
  constructor
  · intro rs
    rw [aggregate_move_responses, foldl_aggStep_spec]
    refine ⟨rfl, rfl, rfl, ?_⟩
    cases (rs.filterMap (fun r => r.1)).getLast? <;> rfl
  · decide



/-- Counterexample for claim C6: a person-name element whose value is absent
encodes to the empty string, not to null. -/
theorem c6_absent_pn_counterexample :
    convert_element noCoerce ⟨⟨0x0010, 0x0010⟩, "PN", .flat .noneV⟩ = .ok (.strV "")
    ∧ convert_element noCoerce ⟨⟨0x0010, 0x0010⟩, "PN", .flat .noneV⟩ ≠ .ok .nullV := by
  constructor
  · rfl
  · intro h
    injection h with h2
    cases h2

/-- Claim C6 (amended): an absent element value renders as null for the
numeric value representations (IS, DS, US/SS/SL/UL/AT, FL/FD) and in the
generic fallback branch, but for the person-name and date/time value
representations (PN, DA, DT, TM) an absent value renders as the empty
string. -/
theorem c6_absent_value_rendering :
    ∀ (co : PyCoerce) (t : DTag),
      convert_element co ⟨t, "IS", .flat .noneV⟩ = .ok .nullV
      ∧ convert_element co ⟨t, "DS", .flat .noneV⟩ = .ok .nullV
      ∧ convert_element co ⟨t, "US", .flat .noneV⟩ = .ok .nullV
      ∧ convert_element co ⟨t, "SS", .flat .noneV⟩ = .ok .nullV
      ∧ convert_element co ⟨t, "SL", .flat .noneV⟩ = .ok .nullV
      ∧ convert_element co ⟨t, "UL", .flat .noneV⟩ = .ok .nullV
      ∧ convert_element co ⟨t, "AT", .flat .noneV⟩ = .ok .nullV
      ∧ convert_element co ⟨t, "FL", .flat .noneV⟩ = .ok .nullV
      ∧ convert_element co ⟨t, "FD", .flat .noneV⟩ = .ok .nullV
      ∧ convert_element co ⟨t, "LO", .flat .noneV⟩ = .ok .nullV
      ∧ convert_element co ⟨t, "PN", .flat .noneV⟩ = .ok (.strV "")
      ∧ convert_element co ⟨t, "DA", .flat .noneV⟩ = .ok (.strV "")
      ∧ convert_element co ⟨t, "DT", .flat .noneV⟩ = .ok (.strV "")
      ∧ convert_element co ⟨t, "TM", .flat .noneV⟩ = .ok (.strV "") :=
  fun co t =>
    ⟨rfl, rfl, rfl, rfl, rfl, rfl, rfl, rfl, rfl, rfl, rfl, rfl, rfl, rfl⟩



theorem convert_record_error_mem (co : PyCoerce) (pre post : List TopElem) (e : TopElem)
    (he : (convert_element co e).isOk = false) :
    (convert_record co (pre ++ e :: post)).isOk = false := by
  induction pre with
  | nil =>
    cases hce : convert_element co e with
    | ok v => rw [hce] at he; simp [Except.isOk, Except.toBool] at he
    | error m =>
      simp [convert_record, hce, Except.isOk, Except.toBool, Bind.bind, Except.bind,
        Functor.map, Except.map]
  | cons p rest ih =>
    cases hcp : convert_element co p with
    | ok v =>
      cases hcr : convert_record co (rest ++ e :: post) with
      | ok out => rw [hcr] at ih; simp [Except.isOk, Except.toBool] at ih
      | error m =>
        simp [convert_record, hcp, hcr, Except.isOk, Except.toBool, Bind.bind, Except.bind,
          Functor.map, Except.map]
    | error m =>
      simp [convert_record, hcp, Except.isOk, Except.toBool, Bind.bind, Except.bind,
        Functor.map, Except.map]

/-- Counterexample for claim C7: an IS element whose value does not parse as
an integer raises a ValueError instead of falling back to the raw string,
and the exception makes the whole record conversion fail. -/
theorem c7_is_parse_failure_counterexample :
    convert_element noCoerce ⟨⟨0x0020, 0x0013⟩, "IS", .flat (.strV "abc")⟩
      = .error "ValueError: invalid literal for int"
    ∧ convert_element noCoerce ⟨⟨0x0020, 0x0013⟩, "IS", .flat (.strV "abc")⟩
        ≠ .ok (.strV "abc")
    ∧ (convert_record noCoerce [⟨⟨0x0020, 0x0013⟩, "IS", .flat (.strV "abc")⟩]).isOk
        = false := by
  refine ⟨rfl, ?_, rfl⟩
  intro h
  exact Except.noConfusion h

/-- Claim C7 (amended): integer-string values that parse are re-rendered as
decimal strings, normalizing leading zeros and whitespace; but a value that
fails to parse raises (no raw-string fallback), and that exception aborts
the conversion of the entire surrounding record. -/
theorem c7_is_conversion :
    (∀ (co : PyCoerce) (t : DTag) (s : String) (n : Int),
        pyIntOfStr s = some n →
        convert_element co ⟨t, "IS", .flat (.strV s)⟩ = .ok (.strV (toString n)))
    ∧ (∀ (co : PyCoerce) (t : DTag) (s : String),
        pyIntOfStr s = none →
        (convert_element co ⟨t, "IS", .flat (.strV s)⟩).isOk = false
        ∧ convert_element co ⟨t, "IS", .flat (.strV s)⟩ ≠ .ok (.strV s))
    ∧ (∀ (co : PyCoerce) (pre post : List TopElem) (t : DTag) (s : String),
        pyIntOfStr s = none →
        (convert_record co (pre ++ ⟨t, "IS", .flat (.strV s)⟩ :: post)).isOk = false)
    ∧ convert_element noCoerce ⟨⟨0x0020, 0x0013⟩, "IS", .flat (.strV " 007 ")⟩
        = .ok (.strV "7") := by
  have hsingle : ∀ (co : PyCoerce) (t : DTag) (s : String),
      convert_element co ⟨t, "IS", .flat (.strV s)⟩ =
        match pyIntOfStr s with
        | some n => .ok (.strV (toString n))
        | none => .error "ValueError: invalid literal for int" := by
    intro co t s
    rfl
  refine ⟨?_, ?_, ?_, ?_⟩
  · intro co t s n h
    rw [hsingle, h]
  · intro co t s h
    rw [hsingle, h]
    exact ⟨rfl, fun hh => Except.noConfusion hh⟩
  · intro co pre post t s h
    exact convert_record_error_mem co pre post _ (by rw [hsingle, h]; rfl)
  · rfl



theorem convert_item_ok_mem (co : PyCoerce) (item : List DElem)
    (out : List (String × TValue)) (h : convert_item co item = .ok out)
    (e : DElem) (he : e ∈ item) :
    ∃ v, convert_item_element co e = .ok v ∧ (itemKey e.tag, v) ∈ out := by
  induction item generalizing out with
  | nil => cases he
  | cons a rest ih =>
    rw [convert_item] at h
    cases hca : convert_item_element co a with
    | error m => rw [hca] at h; exact Except.noConfusion h
    | ok v =>
      rw [hca] at h
      cases hcr : convert_item co rest with
      | error m => rw [hcr] at h; exact Except.noConfusion h
      | ok tail =>
        rw [hcr] at h
        have hout : (itemKey a.tag, v) :: tail = out := Except.ok.inj h
        cases he with
        | head => exact ⟨v, hca, hout ▸ List.mem_cons_self _ _⟩
        | tail _ hmem =>
          obtain ⟨w, hw, hmw⟩ := ih tail hcr hmem
          exact ⟨w, hw, hout ▸ List.mem_cons_of_mem _ hmw⟩

/-- Claim C8: inside sequence items, the bulk LUT-data attribute is always
rendered as a marker that carries only the byte length of the value, never
the raw bytes: the rendering of two byte values of equal length is
identical, every item containing the attribute maps it to the marker, and a
5000-byte value renders as the marker naming 5000. -/
theorem c8_lut_length_marker :
    (∀ (co : PyCoerce) (vr : String) (v : PyVal),
        convert_item_element co ⟨lutDataTag, vr, v⟩
          = .ok (.strV (lutDataMarker (pyLen v))))
    ∧ (∀ (co : PyCoerce) (item : List DElem) (out : List (String × TValue)) (e : DElem),
        convert_item co item = .ok out → e ∈ item → e.tag = lutDataTag →
        (itemKey lutDataTag, TValue.strV (lutDataMarker (pyLen e.value))) ∈ out)
    ∧ (∀ (co : PyCoerce) (vr : String) (bs bs2 : List Nat),
        bs.length = bs2.length →
        convert_item_element co ⟨lutDataTag, vr, .bytesV bs⟩
          = convert_item_element co ⟨lutDataTag, vr, .bytesV bs2⟩)
    ∧ lutDataMarker 5000 = "Binary LUT data (length 5000), not included" := by
  have hmark : ∀ (co : PyCoerce) (vr : String) (v : PyVal),
      convert_item_element co ⟨lutDataTag, vr, v⟩
        = .ok (.strV (lutDataMarker (pyLen v))) := by
    intro co vr v
    rfl
  refine ⟨hmark, ?_, ?_, rfl⟩
  · intro co item out e h he ht
    obtain ⟨v, hv, hm⟩ := convert_item_ok_mem co item out h e he
    have hconv : convert_item_element co e = .ok (.strV (lutDataMarker (pyLen e.value))) := by
      have : e = ⟨lutDataTag, e.vr, e.value⟩ := by
        cases e; cases ht; rfl
      rw [this]
      exact hmark co e.vr e.value
    rw [hconv] at hv
    have hveq : TValue.strV (lutDataMarker (pyLen e.value)) = v := Except.ok.inj hv
    rw [← ht, hveq]
    exact hm
  · intro co vr bs bs2 hlen
    rw [hmark, hmark]
    simp [pyLen, hlen]



/-- Witness for C7 at concrete inputs. -/
theorem c7_is_conversion_witness :
    convert_element noCoerce ⟨⟨0x0018, 0x0060⟩, "IS", .flat (.strV "0042")⟩
      = .ok (.strV "42")
    ∧ (convert_record noCoerce [⟨⟨0x0018, 0x0060⟩, "IS", .flat (.strV "x1")⟩]).isOk
        = false :=
  ⟨c7_is_conversion.1 noCoerce ⟨0x0018, 0x0060⟩ "0042" 42 (by decide),
   c7_is_conversion.2.2.1 noCoerce [] [] ⟨0x0018, 0x0060⟩ "x1" (by decide)⟩

/-- Witness for C8 at a concrete 5000-byte value. -/
theorem c8_lut_length_marker_witness :
    (itemKey lutDataTag, TValue.strV (lutDataMarker 5000))
      ∈ [(itemKey lutDataTag, TValue.strV (lutDataMarker 5000))]
    ∧ convert_item_element noCoerce ⟨lutDataTag, "OW", .bytesV (List.replicate 5000 0)⟩
        = convert_item_element noCoerce ⟨lutDataTag, "OW", .bytesV (List.replicate 5000 1)⟩ := by
  have hlen : pyLen (PyVal.bytesV (List.replicate 5000 0)) = 5000 := by
    show (List.replicate 5000 0).length = 5000
    rw [List.length_replicate]
  constructor
  · have hconv : convert_item noCoerce [⟨lutDataTag, "OW", .bytesV (List.replicate 5000 0)⟩]
        = .ok [(itemKey lutDataTag, TValue.strV (lutDataMarker 5000))] := by
      rw [convert_item,
        c8_lut_length_marker.1 noCoerce "OW" (.bytesV (List.replicate 5000 0)), hlen]
      rfl
    have hmem := c8_lut_length_marker.2.1 noCoerce
        [⟨lutDataTag, "OW", .bytesV (List.replicate 5000 0)⟩]
        [(itemKey lutDataTag, TValue.strV (lutDataMarker 5000))]
        ⟨lutDataTag, "OW", .bytesV (List.replicate 5000 0)⟩ hconv
        (List.mem_singleton_self _) rfl
    rw [hlen] at hmem
    exact hmem
  · exact c8_lut_length_marker.2.2.1 noCoerce "OW" (List.replicate 5000 0)
      (List.replicate 5000 1)
      (by rw [List.length_replicate, List.length_replicate])



theorem fsGet_fsWrite (fs : FileSys) (p p' c : String) :
    fsGet (fsWrite fs p c) p' = if p' = p then some c else fsGet fs p' := by
  induction fs with
  | nil =>
    simp only [fsWrite, fsGet]
    by_cases h : p = p'
    · subst h; simp
    · rw [if_neg h, if_neg (fun hh => h hh.symm)]
  | cons hd tl ih =>
    obtain ⟨p0, c0⟩ := hd
    by_cases h0 : p0 = p
    · subst h0
      simp only [fsWrite, if_pos rfl, fsGet]
      by_cases h : p0 = p'
      · subst h; simp
      · rw [if_neg h, if_neg (fun hh => h hh.symm), if_neg h]
    · simp only [fsWrite, if_neg h0, fsGet]
      by_cases h : p0 = p'
      · subst h
        rw [if_pos rfl, if_neg h0, if_pos rfl]
      · rw [if_neg h, if_neg h, ih]

theorem pathCount_fsWrite (fs : FileSys) (p c : String) :
    pathCount (fsWrite fs p c) p = if pathCount fs p = 0 then 1 else pathCount fs p := by
  induction fs with
  | nil => simp [fsWrite, pathCount]
  | cons hd tl ih =>
    obtain ⟨p0, c0⟩ := hd
    by_cases h0 : p0 = p
    · subst h0
      simp [fsWrite, pathCount, List.countP_cons]
    · have hz : (if (decide (p0 = p)) = true then 1 else 0) = 0 := by simp [h0]
      simp only [pathCount, fsWrite, if_neg h0, List.countP_cons, hz, Nat.add_zero] at ih ⊢
      exact ih

/-- Claim C9: the storage receiver writes an incoming object with SOP
Instance UID `u` to exactly `storageDirectory/u.dcm`, answering success, and
a second delivery with the same identifier overwrites that single file —
after both deliveries exactly one file exists at that path, holding the
second delivery, and neither delivery is rejected. -/
theorem c9_store_idempotent_overwrite :
    ∀ (dir u c1 c2 : String) (fs : FileSys),
      pathCount fs (dir ++ "/" ++ u ++ ".dcm") ≤ 1 →
      (handle_store dir fs ⟨some u, c1, false⟩).1 = 0x0000
      ∧ (handle_store dir (handle_store dir fs ⟨some u, c1, false⟩).2
          ⟨some u, c2, false⟩).1 = 0x0000
      ∧ pathCount (handle_store dir (handle_store dir fs ⟨some u, c1, false⟩).2
          ⟨some u, c2, false⟩).2 (dir ++ "/" ++ u ++ ".dcm") = 1
      ∧ fsGet (handle_store dir (handle_store dir fs ⟨some u, c1, false⟩).2
          ⟨some u, c2, false⟩).2 (dir ++ "/" ++ u ++ ".dcm") = some c2 := by
  intro dir u c1 c2 fs hcount
  refine ⟨rfl, rfl, ?_, ?_⟩
  · show pathCount (fsWrite (fsWrite fs (dir ++ "/" ++ u ++ ".dcm") c1)
      (dir ++ "/" ++ u ++ ".dcm") c2) (dir ++ "/" ++ u ++ ".dcm") = 1
    rw [pathCount_fsWrite, pathCount_fsWrite]
    rcases Nat.le_one_iff_eq_zero_or_eq_one.mp hcount with h0 | h1
    · simp [h0]
    · simp [h1]
  · show fsGet (fsWrite (fsWrite fs (dir ++ "/" ++ u ++ ".dcm") c1)
      (dir ++ "/" ++ u ++ ".dcm") c2) (dir ++ "/" ++ u ++ ".dcm") = some c2
    rw [fsGet_fsWrite, if_pos rfl]

/-- Witness for C9 at a concrete input. -/
theorem c9_store_idempotent_overwrite_witness :
    (handle_store "/data" [] ⟨some "1.2.3", "obj-a", false⟩).1 = 0x0000
    ∧ (handle_store "/data" (handle_store "/data" [] ⟨some "1.2.3", "obj-a", false⟩).2
        ⟨some "1.2.3", "obj-b", false⟩).1 = 0x0000
    ∧ pathCount (handle_store "/data"
        (handle_store "/data" [] ⟨some "1.2.3", "obj-a", false⟩).2
        ⟨some "1.2.3", "obj-b", false⟩).2 ("/data" ++ "/" ++ "1.2.3" ++ ".dcm") = 1
    ∧ fsGet (handle_store "/data"
        (handle_store "/data" [] ⟨some "1.2.3", "obj-a", false⟩).2
        ⟨some "1.2.3", "obj-b", false⟩).2 ("/data" ++ "/" ++ "1.2.3" ++ ".dcm")
        = some "obj-b" :=
  c9_store_idempotent_overwrite "/data" "1.2.3" "obj-a" "obj-b" [] (by decide)

end DicomGateway
